import Mathlib

/-!
Verification of the mode/tool permission gate (src/src/core/mode-validator.ts)
and the task-title derivation (src/webview-ui/src/components/chat/TaskHeader.tsx)
of the Roo-Code fragment.

The gate delegates to the external capability resolver isToolAllowedForMode
(src/shared/modes.ts, not part of the fragment), so the development is
parametric over that resolver: a function of the five inputs returning Bool.
-/

/-- Tool identifiers (the TS ToolName union of string literals). -/
abbrev ToolName := String

/-- Mode identifiers (the TS Mode type, a string slug). -/
abbrev Mode := String

/-- Modelled from the spec: ModeConfig (defined in src/shared/modes.ts, which
is not part of the fragment) is a named, possibly user-defined mode definition
carrying a mode identifier and a rule-set describing which tools are permitted.
The gate treats each ModeConfig as opaque read-only input that is handed to the
resolver, so only a faithful record shape is needed here. -/
structure ModeConfig where
  slug : String
  allowedTools : List String
deriving DecidableEq, Repr

/-- The TS Record String Bool of capability flags (toolRequirements),
modelled as an association list. -/
abbrev ToolRequirements := List (String × Bool)

/-- The TS Record String unknown of intended tool arguments (toolParams);
the gate never inspects the values, so they are modelled as strings. -/
abbrev ToolParams := List (String × String)

/-- The signature of the external capability resolver isToolAllowedForMode:
(toolName, mode, customModes, toolRequirements, toolParams) to Bool.
The two trailing records are optional in TS, hence Option here. -/
abbrev Resolver :=
  ToolName → Mode → List ModeConfig → Option ToolRequirements → Option ToolParams → Bool

/-- A JavaScript Error value as produced by new Error(message): the only data
it carries is the message string (name and stack are not inspected anywhere in
the fragment). -/
structure JSError where
  message : String
deriving DecidableEq, Repr

/-- The template literal of the throw site in validateToolUse. -/
def denialMessage (toolName : ToolName) (mode : Mode) : String :=
  "Tool \"" ++ toolName ++ "\" is not allowed in " ++ mode ++ " mode."

/-- Embedding of validateToolUse (src/src/core/mode-validator.ts, lines 4-14).
The optional customModes argument defaults to the empty array via the
TS expression customModes ?? []; toolRequirements and toolParams are passed
through to the resolver unchanged. A thrown Error is an Except.error, a normal
return is Except.ok. -/
def validateToolUse (r : Resolver) (toolName : ToolName) (mode : Mode)
    (customModes : Option (List ModeConfig))
    (toolRequirements : Option ToolRequirements)
    (toolParams : Option ToolParams) : Except JSError Unit :=
  if !(r toolName mode (customModes.getD []) toolRequirements toolParams) then
    Except.error { message := denialMessage toolName mode }
  else
    Except.ok ()

/-- The caller-visible environment of a call: the customModes collection and
the two optional records, all read-only inputs of the gate. -/
abbrev GateEnv :=
  Option (List ModeConfig) × Option ToolRequirements × Option ToolParams

/-- State-passing reading of validateToolUse: the environment is threaded
explicitly and handed back to the caller; the source body contains no
assignment to customModes, toolRequirements or toolParams, so the state
component of the result is the input environment itself. -/
def validateToolUseEnv (r : Resolver) (toolName : ToolName) (mode : Mode)
    (env : GateEnv) : Except JSError Unit × GateEnv :=
  (validateToolUse r toolName mode env.1 env.2.1 env.2.2, env)

/-- A resolver that denies every request; used to exhibit concrete denials. -/
def denyAll : Resolver := fun _ _ _ _ _ => false

/-- A resolver for the concrete scenario of the spec: mode ask disallows
execute_command and allows every other tool (read_file included). -/
def askScenario : Resolver := fun t m _ _ _ =>
  !(t = "execute_command" && m = "ask")

/-- The fragment of the TS ClineMessage record that TaskHeader reads: the
optional task text (the images field plays no role in the title). -/
structure ClineMessage where
  text : Option String
deriving DecidableEq, Repr

/-- JavaScript String.prototype.indexOf specialised to a single character,
over the character list of the string: the index of the first occurrence,
or -1 when the character does not occur. -/
def jsIndexOf : List Char → Char → Int
  | [], _ => -1
  | c :: cs, target =>
    if c = target then 0
    else
      let r := jsIndexOf cs target
      if r = -1 then -1 else r + 1

/-- Embedding of the firstLineOfTask memo of TaskHeader.tsx (lines 56-65).
A missing task or missing text is the falsy guard (!task || !task.text);
the empty string is falsy in JS, so it also takes the early return. Otherwise
indexOf locates the first newline and substring(0, newlineIndex) keeps the
characters strictly before it; with no newline the whole text is returned. -/
def firstLineOfTask (task : Option ClineMessage) : String :=
  match task with
  | none => ""
  | some tk =>
    match tk.text with
    | none => ""
    | some s =>
      if s = "" then ""
      else
        let newlineIndex := jsIndexOf s.data '\n'
        if newlineIndex = -1 then s
        else String.mk (s.data.take newlineIndex.toNat)

/-- Key lemma for the title derivation: jsIndexOf either reports -1 and the
character is absent, or reports the length of a prefix that excludes the
character and is immediately followed by it. -/
lemma jsIndexOf_spec (l : List Char) (t : Char) :
    (jsIndexOf l t = -1 ∧ t ∉ l) ∨
    (∃ n : ℕ, jsIndexOf l t = (n : ℤ) ∧
      ∃ rest, l = l.take n ++ t :: rest ∧ t ∉ l.take n) := by
  induction l with
  | nil => left; simp [jsIndexOf]
  | cons c cs ih =>
    by_cases hc : c = t
    · subst hc
      right
      exact ⟨0, by simp [jsIndexOf], cs, by simp, by simp⟩
    · rcases ih with ⟨hr, hmem⟩ | ⟨n, hn, rest, hsplit, hnot⟩
      · left
        refine ⟨by simp [jsIndexOf, hc, hr], ?_⟩
        simp only [List.mem_cons, not_or]
        exact ⟨fun h => hc h.symm, hmem⟩
      · right
        have hne : jsIndexOf cs t ≠ -1 := by rw [hn]; omega
        refine ⟨n + 1, ?_, rest, ?_, ?_⟩
        · simp [jsIndexOf, hc, hne, hn]
        · rw [List.take_succ_cons, List.cons_append]
          exact congrArg (c :: ·) hsplit
        · rw [List.take_succ_cons]
          simp only [List.mem_cons, not_or]
          exact ⟨fun h => hc h.symm, hnot⟩

/-- C1: whenever the resolver answers false on the inputs of the call, the
gate fails, and the failure message is exactly the string
Tool "<toolName>" is not allowed in <mode> mode. with the literal tool name
and mode substituted. -/
theorem validateToolUse_denied_message (r : Resolver) (t : ToolName) (m : Mode)
    (c : Option (List ModeConfig)) (req : Option ToolRequirements)
    (p : Option ToolParams) (h : r t m (c.getD []) req p = false) :
    validateToolUse r t m c req p
      = Except.error
          { message := "Tool \"" ++ t ++ "\" is not allowed in " ++ m ++ " mode." } := by
  simp [validateToolUse, denialMessage, h]

/-- Witness for C1: a concrete denial under the all-denying resolver produces
exactly the specified literal message. -/
theorem validateToolUse_denied_message_witness :
    validateToolUse denyAll "execute_command" "ask" (some []) none none
      = Except.error { message := "Tool \"execute_command\" is not allowed in ask mode." } :=
  validateToolUse_denied_message denyAll "execute_command" "ask" (some []) none none rfl

/-- C2: the gate fails exactly when the resolver answers false, and returns
normally (one Except.ok value, no error) exactly when it answers true; the
outcome is a single Except value handed synchronously to the caller. -/
theorem validateToolUse_fails_iff_resolver (r : Resolver) (t : ToolName) (m : Mode)
    (c : Option (List ModeConfig)) (req : Option ToolRequirements)
    (p : Option ToolParams) :
    (validateToolUse r t m c req p = Except.ok ()
        ↔ r t m (c.getD []) req p = true)
    ∧ ((∃ e, validateToolUse r t m c req p = Except.error e)
        ↔ r t m (c.getD []) req p = false) := by
  unfold validateToolUse
  cases hr : r t m (c.getD []) req p <;> simp

/-- C3 counterexample: two calls with different (toolName, mode) pairs produce
the identical failure value, so the failure carries no structured toolName or
mode fields beyond the message text (a plain Error determines at most its
message, and the message does not determine the pair). -/
theorem validateToolUse_error_collision :
    validateToolUse denyAll "a\" is not allowed in b" "c" (some []) none none
      = validateToolUse denyAll "a" "b\" is not allowed in c" (some []) none none
    ∧ ("a\" is not allowed in b" : String) ≠ "a"
    ∧ ("c" : String) ≠ "b\" is not allowed in c" := by
  refine ⟨rfl, by decide, by decide⟩

/-- C3 amended: on denial the failure value is a plain Error whose entire
content is the human-readable message with the tool name and mode
interpolated; it has no further fields. -/
theorem validateToolUse_error_message_only (r : Resolver) (t : ToolName) (m : Mode)
    (c : Option (List ModeConfig)) (req : Option ToolRequirements)
    (p : Option ToolParams) (e : JSError)
    (h : validateToolUse r t m c req p = Except.error e) :
    e = { message := denialMessage t m } := by
  unfold validateToolUse at h
  cases hr : r t m (c.getD []) req p <;> rw [hr] at h <;> simp at h
  exact h.symm

/-- Witness for the C3 amended theorem at a concrete denied call. -/
theorem validateToolUse_error_message_only_witness :
    ({ message := "Tool \"write_to_file\" is not allowed in architect mode." } : JSError)
      = { message := denialMessage "write_to_file" "architect" } :=
  validateToolUse_error_message_only denyAll "write_to_file" "architect"
    (some []) none none
    { message := "Tool \"write_to_file\" is not allowed in architect mode." } rfl

/-- C4: the decision is a pure function of the input tuple: two calls against
the same resolver with equal inputs yield the identical outcome, allow or the
identical denial. -/
theorem validateToolUse_deterministic (r : Resolver)
    (t₁ t₂ : ToolName) (m₁ m₂ : Mode) (c₁ c₂ : Option (List ModeConfig))
    (req₁ req₂ : Option ToolRequirements) (p₁ p₂ : Option ToolParams)
    (ht : t₁ = t₂) (hm : m₁ = m₂) (hc : c₁ = c₂) (hreq : req₁ = req₂)
    (hp : p₁ = p₂) :
    validateToolUse r t₁ m₁ c₁ req₁ p₁ = validateToolUse r t₂ m₂ c₂ req₂ p₂ := by
  subst ht hm hc hreq hp
  rfl

/-- Witness for C4: the two calls of a repeated concrete invocation agree. -/
theorem validateToolUse_deterministic_witness :
    validateToolUse askScenario "read_file" "ask" (some []) none none
      = validateToolUse askScenario "read_file" "ask" (some []) none none :=
  validateToolUse_deterministic askScenario "read_file" "read_file" "ask" "ask"
    (some []) (some []) none none none none rfl rfl rfl rfl rfl

/-- C5: with an empty customModes collection the call is total and its outcome
is exactly what the resolver decides on the built-in-only rule set, that is on
the empty custom-mode list. -/
theorem validateToolUse_empty_customModes (r : Resolver) (t : ToolName) (m : Mode)
    (req : Option ToolRequirements) (p : Option ToolParams) :
    validateToolUse r t m (some []) req p
      = if r t m [] req p then Except.ok ()
        else Except.error { message := denialMessage t m } := by
  unfold validateToolUse
  cases hr : r t m [] req p <;> simp [hr]

/-- C6: omitting toolRequirements and toolParams behaves identically to
passing them as empty mappings, granted the resolver property the spec states
for isToolAllowedForMode (absence treated as no constraints). -/
theorem validateToolUse_omitted_constraints (r : Resolver) (t : ToolName)
    (m : Mode) (c : Option (List ModeConfig))
    (h : r t m (c.getD []) none none = r t m (c.getD []) (some []) (some [])) :
    validateToolUse r t m c none none
      = validateToolUse r t m c (some []) (some []) := by
  unfold validateToolUse
  rw [h]

/-- Witness for C6 under the all-denying resolver, whose answer is independent
of the optional records. -/
theorem validateToolUse_omitted_constraints_witness :
    validateToolUse denyAll "read_file" "code" (some []) none none
      = validateToolUse denyAll "read_file" "code" (some []) (some []) (some []) :=
  validateToolUse_omitted_constraints denyAll "read_file" "code" (some []) rfl

/-- C7: the gate leaves its environment untouched: in the state-passing
reading the returned environment equals the input environment, and the only
further output is the allow or deny signal of the pure gate. -/
theorem validateToolUse_frame (r : Resolver) (t : ToolName) (m : Mode)
    (env : GateEnv) :
    (validateToolUseEnv r t m env).2 = env
    ∧ (validateToolUseEnv r t m env).1
        = validateToolUse r t m env.1 env.2.1 env.2.2 :=
  ⟨rfl, rfl⟩

/-- C8: under a resolver where mode ask disallows execute_command and allows
read_file, the execute_command call fails with the exact literal message and
the read_file call returns normally. -/
theorem validateToolUse_ask_scenario (r : Resolver)
    (hexec : r "execute_command" "ask" [] none none = false)
    (hread : r "read_file" "ask" [] none none = true) :
    validateToolUse r "execute_command" "ask" (some []) none none
      = Except.error
          { message := "Tool \"execute_command\" is not allowed in ask mode." }
    ∧ validateToolUse r "read_file" "ask" (some []) none none = Except.ok () := by
  constructor
  · simp only [validateToolUse, Option.getD_some, hexec, Bool.not_false, if_true]
    rfl
  · simp [validateToolUse, hread]

/-- Witness for C8: the concrete askScenario resolver realises both
hypotheses and both outcomes. -/
theorem validateToolUse_ask_scenario_witness :
    validateToolUse askScenario "execute_command" "ask" (some []) none none
      = Except.error
          { message := "Tool \"execute_command\" is not allowed in ask mode." }
    ∧ validateToolUse askScenario "read_file" "ask" (some []) none none
      = Except.ok () :=
  validateToolUse_ask_scenario askScenario rfl rfl

/-- C9: the omitted customModes argument is defaulted to the empty array
before the resolver is consulted, so the call with none equals the call with
the explicit empty collection. -/
theorem validateToolUse_none_customModes (r : Resolver) (t : ToolName) (m : Mode)
    (req : Option ToolRequirements) (p : Option ToolParams) :
    validateToolUse r t m none req p = validateToolUse r t m (some []) req p :=
  rfl

/-- C10: the collapsed-header title. With an absent task, absent text or empty
text it is the empty string; with no newline in the text it is the whole text;
otherwise it is the prefix of the text strictly before the first newline
(the characters before a newline, none of which is itself a newline). -/
theorem firstLineOfTask_spec (task : Option ClineMessage) :
    ((task = none
        ∨ ∃ tk, task = some tk ∧ (tk.text = none ∨ tk.text = some "")) →
      firstLineOfTask task = "")
    ∧ (∀ tk s, task = some tk → tk.text = some s → '\n' ∉ s.data →
      firstLineOfTask task = s)
    ∧ (∀ tk s, task = some tk → tk.text = some s → '\n' ∈ s.data →
      ∃ rest, s.data = (firstLineOfTask task).data ++ '\n' :: rest
        ∧ '\n' ∉ (firstLineOfTask task).data) := by
  refine ⟨?_, ?_, ?_⟩
  · rintro (rfl | ⟨tk, rfl, htext | htext⟩)
    · rfl
    · simp [firstLineOfTask, htext]
    · simp [firstLineOfTask, htext]
  · rintro tk s rfl htext hnl
    by_cases hs : s = ""
    · subst hs
      simp [firstLineOfTask, htext]
    · rcases jsIndexOf_spec s.data '\n' with ⟨h1, _⟩ | ⟨n, _, rest, hsplit, _⟩
      · simp [firstLineOfTask, htext, hs, h1]
      · exact absurd (by rw [hsplit]; simp) hnl
  · rintro tk s rfl htext hnl
    have hs : s ≠ "" := by
      intro h
      subst h
      simp at hnl
    rcases jsIndexOf_spec s.data '\n' with ⟨_, hmem⟩ | ⟨n, hn, rest, hsplit, hnot⟩
    · exact absurd hnl hmem
    · have hne : jsIndexOf s.data '\n' ≠ -1 := by rw [hn]; omega
      have hfl : firstLineOfTask (some tk) = String.mk (s.data.take n) := by
        simp [firstLineOfTask, htext, hs, hne, hn]
      rw [hfl]
      exact ⟨rest, hsplit, hnot⟩

/-- Witness for C10: a concrete two-line task text yields exactly its first
line, split strictly before the newline. -/
theorem firstLineOfTask_spec_witness :
    ∃ rest,
      ("hello\nworld" : String).data
        = (firstLineOfTask (some ⟨some "hello\nworld"⟩)).data ++ '\n' :: rest
      ∧ '\n' ∉ (firstLineOfTask (some ⟨some "hello\nworld"⟩)).data :=
  (firstLineOfTask_spec (some ⟨some "hello\nworld"⟩)).2.2
    ⟨some "hello\nworld"⟩ "hello\nworld" rfl rfl (by decide)
